import Mathlib

/-!
# Verification of the ST-servo motion-controller core

A shallow embedding of the core control logic of `backend/app.py`
(`ServoController`): the per-servo continuous-movement worker, the sweep
setpoint calculation, the pause / resume flag protocol, the group sync
writer, the servo-ID change sequence and the disconnect path.

Conventions of the embedding:
* Python dict entries whose presence matters (`"key" in pattern` checks,
  `pattern.get(key, default)`) are `Option` fields; entries that every
  producer writes unconditionally are plain fields.
* Bus transactions are represented by a command alphabet `Cmd`; the
  outcome of each transaction (comm result, or an exception escaping the
  SDK call) is supplied by an environment record, so the functions are
  deterministic in (state, environment).
* Wall-clock quantities (the sine term of the wave pattern) are likewise
  supplied by the environment.
* `time.sleep` calls appear in event traces as `sleepMs` markers.
-/

namespace STServo

/-- Movement pattern kinds dispatched on by the controller
(`pattern["type"]` is one of `"sweep"`, `"wave"`, `"rotation"`). -/
inductive PKind where
  | sweep
  | wave
  | rotation
deriving DecidableEq, Repr

/-- Bus commands issued through the packet handler.  `sleepMs` marks a
`time.sleep` in a command trace. -/
inductive Cmd where
  | writePosEx (id pos speed acc : Int)
  | writeSpec (id speed acc : Int)
  | readPos (id : Int)
  | writeTorque (id v : Int)
  | pingCmd (id : Int)
  | unlockEprom (id : Int)
  | writeIdReg (id newId : Int)
  | lockEprom (id : Int)
  | txSyncFrame (ids : List Int)
  | sleepMs (ms : Nat)
deriving DecidableEq, Repr

/-- The STservo SDK constant `COMM_SUCCESS`. -/
def COMM_SUCCESS : Int := 0

/-- The STservo SDK constant `COMM_TX_FAIL` (returned by a failing
`txPacket`). -/
def COMM_TX_FAIL : Int := -2

/-- The STservo SDK constant `COMM_TX_ERROR` (returned by `syncWrite` when no
servo could be added to the batch). -/
def COMM_TX_ERROR : Int := -4

/-- The movement-pattern dict attached to one servo
(`self.movement_patterns[servo_id]`).  Fields that some producers omit
are `Option`s (`none` = key absent). -/
structure Pattern where
  kind : PKind
  speed : Int
  acceleration : Int
  running : Bool
  paused : Bool
  immediate_stop : Bool
  emergency_stop : Bool
  current_position : Option Int
  angle_enabled : Bool
  min_angle : Option Int
  max_angle : Option Int
  min_position : Option Int
  max_position : Option Int
  start_position : Option Int
  end_position : Option Int
  center_position : Option Int
  amplitude : Option Int
  direction : Option Int
  cycle_count : Option Int
  cycles : Option Int
deriving DecidableEq, Repr

/-- One entry of `movement_configs` as read by `start_continuous_movement`
(defaults are the `config.get(...)` defaults of the source). -/
structure MoveConfig where
  servo_id : Int
  kind : PKind
  speed : Int
  acceleration : Int
  constraints_enabled : Bool
  min_angle : Option Int
  max_angle : Option Int
  min_position : Int
  max_position : Int
  direction : Int
  amplitude : Int
  center_position : Int
deriving DecidableEq, Repr

/-- The pattern dict built by `start_continuous_movement` (app.py
696-732): flags cleared, `current_position` preset to `0`, angle
constraints copied, and the kind-specific keys — for sweep the request
bounds are stored under `min_position` / `max_position`. -/
def startPattern (c : MoveConfig) : Pattern :=
  let base : Pattern :=
    { kind := c.kind
      speed := c.speed
      acceleration := c.acceleration
      running := true
      paused := false
      immediate_stop := false
      emergency_stop := false
      current_position := some 0
      angle_enabled := c.constraints_enabled
      min_angle := c.min_angle
      max_angle := c.max_angle
      min_position := none
      max_position := none
      start_position := none
      end_position := none
      center_position := none
      amplitude := none
      direction := none
      cycle_count := none
      cycles := none }
  match c.kind with
  | PKind.sweep =>
      { base with
        min_position := some c.min_position
        max_position := some c.max_position
        direction := some 1 }
  | PKind.wave =>
      { base with
        amplitude := some c.amplitude
        center_position := some c.center_position }
  | PKind.rotation =>
      { base with direction := some c.direction }

/-- Worker initialisation (app.py 1679-1707): seed `current_position`
from a live read (fallback 2048) only when the key is absent, then fill
kind-field defaults.  `live` is the outcome of `ReadPos` (`none` = comm
failure or exception). -/
def workerInit (p : Pattern) (live : Option Int) : Pattern :=
  let p1 :=
    match p.current_position with
    | some _ => p
    | none => { p with current_position := some (live.getD 2048) }
  let p2 := if p1.direction.isNone then { p1 with direction := some 1 } else p1
  let p3 := if p2.cycle_count.isNone then { p2 with cycle_count := some 0 } else p2
  let p4 := if p3.start_position.isNone then { p3 with start_position := some 0 } else p3
  let p5 := if p4.end_position.isNone then { p4 with end_position := some 4095 } else p4
  if p5.center_position.isNone then { p5 with center_position := some 2048 } else p5

/-- The clamp `max lo (min hi v)` as written in the source. -/
def clampI (lo hi v : Int) : Int := max lo (min hi v)

/-- Embedding of `_calculate_sweep_position` (app.py 2320-2362): local sanitisation of
the bounds / speed / direction, then the move-or-turn rule.  The dict
mutations (`direction`, `cycle_count`) happen inside the calculation. -/
def calcSweep (p : Pattern) (current_pos : Int) : Pattern × Int :=
  let start_pos0 := p.start_position.getD 0
  let end_pos0 := p.end_position.getD 4095
  let speed0 := p.speed
  let dir0 := p.direction.getD 1
  let start_pos1 := if start_pos0 < 0 ∨ start_pos0 > 4095 then 0 else start_pos0
  let end_pos1 := if end_pos0 < 0 ∨ end_pos0 > 4095 then 4095 else end_pos0
  let speed1 := if speed0 < 0 then 100 else speed0
  let dir1 := if dir0 = 1 ∨ dir0 = -1 then dir0 else 1
  let sp := if start_pos1 > end_pos1 then end_pos1 else start_pos1
  let ep := if start_pos1 > end_pos1 then start_pos1 else end_pos1
  if dir1 = 1 then
    if current_pos ≥ ep then
      ({ p with
          direction := some (-1)
          cycle_count := some (p.cycle_count.getD 0 + 1) },
        clampI 0 4095 ep)
    else
      (p, clampI 0 4095 (min ep (current_pos + speed1)))
  else
    if current_pos ≤ sp then
      ({ p with
          direction := some 1
          cycle_count := some (p.cycle_count.getD 0 + 1) },
        clampI 0 4095 sp)
    else
      (p, clampI 0 4095 (max sp (current_pos - speed1)))

/-- Embedding of `_calculate_wave_position` (app.py 2386-2402).  `osc` stands for
`int(amplitude * sin(2π·frequency·elapsed))`, which depends on the wall
clock and is supplied by the environment. -/
def calcWave (p : Pattern) (osc : Int) : Int :=
  clampI 0 4095 (p.center_position.getD 2048 + osc)

/-- Embedding of `_calculate_next_position` (app.py 2287-2318): sanitise the current
position, then dispatch on the pattern type. -/
def calcNext (p : Pattern) (osc : Int) : Pattern × Int :=
  let cp0 := p.current_position.getD 2048
  let cp := if cp0 < 0 ∨ cp0 > 4095 then 2048 else cp0
  match p.kind with
  | PKind.sweep => calcSweep p cp
  | PKind.rotation => (p, cp)
  | PKind.wave => (p, calcWave p osc)

/-- Worker-side angle-constraint clamp (app.py 1743-1762): clamp the
next setpoint into `[min_angle, max_angle]` and flip the stored sweep
direction on a clamp. -/
def angleClamp (p : Pattern) (next : Int) : Pattern × Int :=
  if p.angle_enabled then
    match p.min_angle, p.max_angle with
    | some mn, some mx =>
        if next < mn then
          (if p.kind = PKind.sweep
             then { p with direction := p.direction.map (fun d => d * (-1)) }
             else p, mn)
        else if next > mx then
          (if p.kind = PKind.sweep
             then { p with direction := p.direction.map (fun d => d * (-1)) }
             else p, mx)
        else (p, next)
    | _, _ => (p, next)
  else (p, next)

/-- The bus command of one movement step (`_execute_sweep_step` /
`_execute_rotation_step` / `_execute_wave_step`, app.py 2085-2169),
including the local input sanitisation of those functions. -/
def stepCmd (id : Int) (p : Pattern) (next : Int) : Cmd :=
  match p.kind with
  | PKind.rotation =>
      let eff0 := |p.speed| + (if p.speed < 0 then 1024 else 0)
      Cmd.writeSpec id (clampI 0 2047 eff0) (clampI 0 254 p.acceleration)
  | _ =>
      let n := if next < 0 ∨ next > 4095 then p.current_position.getD 2048 else next
      Cmd.writePosEx id n (clampI 0 1023 p.speed) (clampI 0 254 p.acceleration)

/-- Embedding of `_attempt_servo_recovery(servo_id, pattern)` (app.py 1865-1906)
repeated over a list of attempt outcomes: `some pos` is a successful
ladder (ping, torque re-enable, position read `pos` — the read updates
`current_position`), `none` a failed one. -/
def runRecovery (p : Pattern) : List (Option Int) → Pattern × Bool
  | [] => (p, false)
  | some pos :: _ => ({ p with current_position := some pos }, true)
  | none :: rest => runRecovery p rest

/-- Embedding of `_check_communication_health_during_movement` (app.py 2900-2936): a
position read; on failure up to three recovery attempts.  It returns
`true` in every case — it never stops the motor. -/
def healthCheck (p : Pattern) (read : Option Int)
    (recov : List (Option Int)) : Pattern × Bool :=
  match read with
  | some v => ({ p with current_position := some v }, true)
  | none => ((runRecovery p (recov.take 3)).1, true)

/-- Worker-local loop state: the pattern dict plus the loop counters of
`_continuous_movement_worker`. -/
structure WState where
  pattern : Pattern
  fails : Nat
  steps : Nat
  last_success : Option Int
deriving DecidableEq, Repr

/-- Environment of one worker iteration: whether each of the up-to-three
movement attempts runs without an exception escaping the step helper,
the recovery-ladder outcomes, the health-check read and its recovery
outcomes, the wave oscillation term, and whether the iteration body
raises outside the step helpers (caught at app.py 1845). -/
structure StepEnv where
  move1 : Bool
  move2 : Bool
  move3 : Bool
  recovery : List (Option Int)
  healthRead : Option Int
  healthRecovery : List (Option Int)
  waveOsc : Int
  bodyRaises : Bool
deriving DecidableEq, Repr

/-- How one iteration of the worker loop ended. -/
inductive StepOut where
  | exited
  | continued
  | broke
deriving DecidableEq, Repr

/-- Result of one worker iteration. -/
structure StepResult where
  st : WState
  emitted : List Cmd
  out : StepOut
deriving DecidableEq, Repr

/-- The failure-counter update of the worker's failure paths: increment,
and reset to zero once `max_consecutive_failures = 5` is reached
(whether or not recovery succeeded). -/
def failCounter (fails : Nat) : Nat :=
  if fails + 1 ≥ 5 then 0 else fails + 1

/-- The post-success bookkeeping of one worker iteration (app.py
1792-1803 and the health check 1830-1837): store the commanded
position, reset the failure counter, apply the worker-side
cycle-increment check, and run the in-band health check every 20th
step. -/
def successState (s : WState) (env : StepEnv) (p2 : Pattern) (next : Int) : WState :=
  let p3 := { p2 with current_position := some next }
  let boundary :=
    p3.kind = PKind.sweep ∧
      ((p3.direction.getD 1 = 1 ∧ next ≥ p3.end_position.getD 4095) ∨
       (p3.direction.getD 1 = -1 ∧ next ≤ p3.start_position.getD 0))
  let p4 :=
    if boundary then
      { p3 with cycle_count := some (p3.cycle_count.getD 0 + 1) }
    else p3
  let p5 :=
    if (s.steps + 1) % 20 = 0 then
      (healthCheck p4 env.healthRead env.healthRecovery).1
    else p4
  ⟨p5, 0, s.steps + 1, some next⟩

/-- The post-failure bookkeeping of one worker iteration (app.py
1804-1828 and the health check): at the failure threshold run the
recovery ladder and reset the counter whatever its outcome; below the
threshold just count; then the every-20th-step health check. -/
def failState (s : WState) (env : StepEnv) (p2 : Pattern) : WState :=
  let afterRec :=
    if s.fails + 1 ≥ 5 then (runRecovery p2 (env.recovery.take 3)).1
    else p2
  let p5 :=
    if (s.steps + 1) % 20 = 0 then
      (healthCheck afterRec env.healthRead env.healthRecovery).1
    else afterRec
  ⟨p5, failCounter s.fails, s.steps + 1, s.last_success⟩

/-- One iteration of `_continuous_movement_worker`'s main loop
(app.py 1715-1855), with the pause/stop flags read once per iteration
(the single-thread view of one loop pass; no other thread mutates the
flags inside the pass).  `exited` = the `while` guard failed, `broke` =
a mid-body stop-flag recheck fired, `continued` = the iteration ran (or
slept) and the loop goes on. -/
def workerStep (id : Int) (s : WState) (env : StepEnv) : StepResult :=
  let p := s.pattern
  if ¬ p.running then ⟨s, [], StepOut.exited⟩
  else if p.immediate_stop ∨ p.emergency_stop then ⟨s, [], StepOut.continued⟩
  else if p.paused then ⟨s, [], StepOut.continued⟩
  else if env.bodyRaises then
    -- `except Exception` at 1845: count the failure, reset at the
    -- threshold, sleep and continue; never clears `running`.
    ⟨⟨p, failCounter s.fails, s.steps, s.last_success⟩, [], StepOut.continued⟩
  else if p.immediate_stop ∨ p.emergency_stop then ⟨s, [], StepOut.broke⟩
  else
    let c1 := calcNext p env.waveOsc
    let p1 := c1.1
    if p1.immediate_stop ∨ p1.emergency_stop then
      ⟨⟨p1, s.fails, s.steps, s.last_success⟩, [], StepOut.broke⟩
    else
      let c2 := angleClamp p1 c1.2
      let p2 := c2.1
      let next := c2.2
      if p2.immediate_stop ∨ p2.emergency_stop then
        ⟨⟨p2, s.fails, s.steps, s.last_success⟩, [], StepOut.broke⟩
      else
        if env.move1 || env.move2 || env.move3 then
          ⟨successState s env p2 next, [stepCmd id p2 next], StepOut.continued⟩
        else
          ⟨failState s env p2, [], StepOut.continued⟩

/-- The cycle-completion check of `_group_continuous_movement_worker`
(app.py 2022-2027) — the only place in the source that ends a pattern on
`cycle_count`; that worker is never spawned by any caller. -/
def groupCycleCheck (p : Pattern) : Pattern :=
  if p.cycles.getD (-1) > 0 ∧ p.cycle_count.getD 0 ≥ p.cycles.getD (-1) then
    { p with running := false }
  else p

/-- Observable events of the pause path: flag writes under the pause
lock, sleeps, and bus commands, in program order. -/
inductive PEvent where
  | setImmediate (b : Bool)
  | setEmergency (b : Bool)
  | setPaused (b : Bool)
  | sleepEv (ms : Nat)
  | busCmd (c : Cmd)
deriving DecidableEq, Repr

/-- Transport outcomes seen by `pause_continuous_movement` for one
servo: the position read for the positional hold (`none` = failure or
exception, the source then falls back to 2048), and whether the
rotation zero-speed write, the positional hold write and the
torque-enable write complete with `COMM_SUCCESS` (an exception at those
calls behaves like a failure of the same branch). -/
structure PauseEnv where
  readPos : Option Int
  writeSpecOk : Bool
  writePosOk : Bool
  torqueOk : Bool
deriving DecidableEq, Repr

/-- Result of pausing one servo. -/
structure PauseOut where
  pattern : Pattern
  events : List PEvent
  success : Bool
deriving DecidableEq, Repr

/-- The flag-assertion prefix of the pause path: the three flags set
under `pause_lock`, then the 100 ms observation sleep (app.py 884-891). -/
def pauseFlagAsserts : List PEvent :=
  [PEvent.setImmediate true, PEvent.setEmergency true, PEvent.setPaused true,
   PEvent.sleepEv 100]

/-- The per-servo body of `pause_continuous_movement` (app.py 879-981).
Guarded on a running pattern; asserts the three flags under the pause
lock, sleeps 100 ms, re-verifies `immediate_stop` (still set here — no
other thread clears it inside the call), sends the kind-specific hold
command, re-asserts torque, and on success clears only
`emergency_stop`.  On a failed rotation zero-speed write or a failed
positional torque re-assert it rolls all three flags back to `false`
and reports failure. -/
def pauseServo (id : Int) (p : Pattern) (env : PauseEnv) : PauseOut :=
  if ¬ p.running then ⟨p, [], false⟩
  else
    let p1 := { p with immediate_stop := true, emergency_stop := true, paused := true }
    match p.kind with
    | PKind.rotation =>
        let ev1 := pauseFlagAsserts ++ [PEvent.busCmd (Cmd.writeSpec id 0 50)]
        if env.writeSpecOk then
          ⟨{ p1 with emergency_stop := false },
            ev1 ++ [PEvent.busCmd (Cmd.writeTorque id 1), PEvent.sleepEv 50,
                    PEvent.setEmergency false],
            true⟩
        else
          ⟨{ p1 with paused := false, immediate_stop := false, emergency_stop := false },
            ev1, false⟩
    | _ =>
        let pos := env.readPos.getD 2048
        let ev1 := pauseFlagAsserts ++
          [PEvent.busCmd (Cmd.readPos id), PEvent.busCmd (Cmd.writePosEx id pos 0 0),
           PEvent.busCmd (Cmd.writeTorque id 1)]
        if env.torqueOk then
          ⟨{ p1 with emergency_stop := false },
            ev1 ++ [PEvent.sleepEv 50, PEvent.setEmergency false],
            true⟩
        else
          ⟨{ p1 with paused := false, immediate_stop := false, emergency_stop := false },
            ev1, false⟩

/-- One batch entry handed to `syncWrite`: the servo id plus whether the
SDK's `SyncWritePosEx` accepts it into the frame (`addOk`).  Position,
speed and acceleration ride along for the frame payload. -/
structure SyncEntry where
  id : Int
  pos : Int
  speed : Int
  acc : Int
  addOk : Bool
deriving DecidableEq, Repr

/-- Result of a group sync write: the SDK comm code, the ids included in
the frame, and the bus trace (frame transmissions and backoff sleeps). -/
structure SyncOut where
  result : Int
  added : List Int
  trace : List Cmd
deriving DecidableEq, Repr

/-- Embedding of `syncWrite` (app.py 2171-2223): add every entry to the batch,
keeping lists of accepted and rejected ids; error out if nothing was
accepted; otherwise transmit with up to 2 attempts and a 50 ms backoff,
returning the last `txPacket` code.  `tx1`, `tx2` are the outcomes of
the two transmission attempts. -/
def syncWrite (entries : List SyncEntry) (tx1 tx2 : Bool) : SyncOut :=
  let added := (entries.filter (fun e => e.addOk)).map (fun e => e.id)
  if added.isEmpty then ⟨COMM_TX_ERROR, added, []⟩
  else if tx1 then ⟨COMM_SUCCESS, added, [Cmd.txSyncFrame added]⟩
  else if tx2 then
    ⟨COMM_SUCCESS, added,
      [Cmd.txSyncFrame added, Cmd.sleepMs 50, Cmd.txSyncFrame added]⟩
  else
    ⟨COMM_TX_FAIL, added,
      [Cmd.txSyncFrame added, Cmd.sleepMs 50, Cmd.txSyncFrame added]⟩

/-- Transport outcomes seen by `change_servo_id`: the availability ping
of the new id distinguishes an exception (the source logs it and
continues) from a comm result. -/
structure IdEnv where
  pingOldOk : Bool
  pingNewRaises : Bool
  pingNewResponds : Bool
  unlockOk : Bool
  writeIdOk : Bool
  lockNewOk : Bool
  verifyPingOk : Bool
deriving DecidableEq, Repr

/-- Embedding of `change_servo_id` (app.py 561-648): validation, the two pings, the
EEPROM-protected sequence, the 200 ms settle wait and the verification
ping.  Returns the success flag and the bus trace. -/
def changeServoId (oldId newId : Int) (env : IdEnv) : Bool × List Cmd :=
  if oldId < 0 ∨ oldId > 253 ∨ newId < 0 ∨ newId > 253 then (false, [])
  else if oldId = newId then (false, [])
  else if ¬ env.pingOldOk then (false, [Cmd.pingCmd oldId])
  else
    let t1 := [Cmd.pingCmd oldId, Cmd.pingCmd newId]
    if ¬ env.pingNewRaises ∧ env.pingNewResponds then (false, t1)
    else
      let t2 := t1 ++ [Cmd.unlockEprom oldId]
      if ¬ env.unlockOk then (false, t2)
      else
        let t3 := t2 ++ [Cmd.sleepMs 100, Cmd.writeIdReg oldId newId]
        if ¬ env.writeIdOk then (false, t3 ++ [Cmd.lockEprom oldId])
        else
          let t4 := t3 ++ [Cmd.sleepMs 150, Cmd.lockEprom newId]
          if ¬ env.lockNewOk then (false, t4)
          else
            (env.verifyPingOk, t4 ++ [Cmd.sleepMs 200, Cmd.pingCmd newId])

/-- Whether a command touches servo EEPROM (unlock, the ID-register
write, lock). -/
def touchesEeprom : Cmd → Bool
  | Cmd.unlockEprom _ => true
  | Cmd.writeIdReg _ _ => true
  | Cmd.lockEprom _ => true
  | _ => false

/-- The EEPROM-touching commands of a trace. -/
def eepromOps (t : List Cmd) : List Cmd := t.filter touchesEeprom

/-- Controller-level connection state (`ServoController` fields touched
by `disconnect`, plus the movement records and worker-thread ids). -/
structure CtrlState where
  is_connected : Bool
  port_open : Bool
  discovered : List Int
  patterns : List (Int × Pattern)
  threads : List Int
  speed_writer : Bool
  position_writer : Bool
deriving DecidableEq, Repr

/-- Embedding of `disconnect` (app.py 92-106): close the port, drop the discovery map
and the group-sync writers, clear `is_connected`, return success.  It
does not touch `movement_patterns` or the worker threads. -/
def disconnect (s : CtrlState) : CtrlState × Bool :=
  ({ s with
      is_connected := false
      port_open := false
      discovered := []
      speed_writer := false
      position_writer := false },
    true)

/-- The session-state effect of `stop_continuous_movement` on one
record (app.py 771-849): after clearing `running`, joining the worker
and holding the servo, the pattern record and the thread handle are
deleted. -/
def stopServoRecord (s : CtrlState) (id : Int) : CtrlState :=
  { s with
      patterns := s.patterns.filter (fun q => q.1 ≠ id)
      threads := s.threads.filter (fun t => t ≠ id) }

/-- The pattern dict built by `_create_sweep_pattern` (app.py
1307-1327); the only producer in the source that stores a cycle target
(under the key `cycles`). -/
def createSweepPattern (start_pos end_pos speed acc cycles : Int) : Pattern :=
  { kind := PKind.sweep
    speed := speed
    acceleration := acc
    running := true
    paused := false
    immediate_stop := false
    emergency_stop := false
    current_position := some start_pos
    angle_enabled := false
    min_angle := none
    max_angle := none
    min_position := none
    max_position := none
    start_position := some start_pos
    end_position := some end_pos
    center_position := none
    amplitude := none
    direction := some 1
    cycle_count := some 0
    cycles := some cycles }

/-- A benign one-iteration environment: the first movement attempt runs
without an exception, no health-check read is due to succeed, no wave
oscillation. -/
def probeEnv : StepEnv :=
  { move1 := true
    move2 := false
    move3 := false
    recovery := []
    healthRead := none
    healthRecovery := []
    waveOsc := 0
    bodyRaises := false }

/-- Iterated worker steps under a fixed environment. -/
def iterWorker (id : Int) (env : StepEnv) : Nat → WState → WState
  | 0, s => s
  | n + 1, s => iterWorker id env n (workerStep id s env).st

/-- The sweep request of spec scenario 2 / the bounds scenario: servo 1,
sweep, speed 200, acceleration 50, requested bounds 1000-3000, angle
limits disabled. -/
def cfgS : MoveConfig :=
  { servo_id := 1
    kind := PKind.sweep
    speed := 200
    acceleration := 50
    constraints_enabled := false
    min_angle := none
    max_angle := none
    min_position := 1000
    max_position := 3000
    direction := 1
    amplitude := 1000
    center_position := 2048 }

/-- The record `start_continuous_movement` builds for `cfgS`, after the
worker's initialisation pass (live read returning 2000). -/
def pStart : Pattern := workerInit (startPattern cfgS) (some 2000)

/-- Worker state after 15 iterations from the freshly started record. -/
def sC3 : WState := iterWorker 1 probeEnv 15 ⟨pStart, 0, 0, none⟩

/-- The started record a moment before touching the upper bound of its
(defaulted) travel. -/
def pC4 : Pattern := { pStart with current_position := some 4000 }

/-- First worker iteration at the boundary approach. -/
def rC4a : StepResult := workerStep 1 ⟨pC4, 0, 0, none⟩ probeEnv

/-- Second worker iteration, parked on the boundary. -/
def rC4b : StepResult := workerStep 1 rC4a.st probeEnv

/-- A finite sweep pattern as `_create_sweep_pattern` would build it:
bounds 1000-3000, speed 200, acceleration 50, a target of 2 cycles,
after worker initialisation (no live read needed: the key is present). -/
def pC1 : Pattern := workerInit (createSweepPattern 1000 3000 200 50 2) none

/-- The state `pC1` driven for 11 worker iterations, at which point its
`cycle_count` has reached the stored target. -/
def sC1 : WState := iterWorker 1 probeEnv 11 ⟨pC1, 0, 0, none⟩

/-- A step environment in which every movement attempt fails and every
recovery-ladder attempt fails. -/
def envFail : StepEnv :=
  { move1 := false
    move2 := false
    move3 := false
    recovery := [none, none, none]
    healthRead := none
    healthRecovery := []
    waveOsc := 0
    bodyRaises := false }

/-- A running rotation record as started for servo 1. -/
def pRot : Pattern := startPattern { cfgS with kind := PKind.rotation }

/-- Pause-path transports all succeeding. -/
def envPauseOk : PauseEnv :=
  { readPos := some 1500, writeSpecOk := true, writePosOk := true, torqueOk := true }

/-- Pause-path transports with the rotation zero-speed write failing. -/
def envPauseFail : PauseEnv :=
  { readPos := some 1500, writeSpecOk := false, writePosOk := true, torqueOk := true }

/-- A three-servo batch in which servo 99 is rejected by the SDK add. -/
def entW : List SyncEntry :=
  [⟨1, 1500, 100, 50, true⟩, ⟨7, 1600, 100, 50, true⟩, ⟨99, 1700, 100, 50, false⟩]

/-- An ID-change environment in which every transport succeeds and the
new id is free. -/
def idEnvGood : IdEnv :=
  { pingOldOk := true
    pingNewRaises := false
    pingNewResponds := false
    unlockOk := true
    writeIdOk := true
    lockNewOk := true
    verifyPingOk := true }

/-- A connected controller with one running sweep worker on servo 1. -/
def sDis : CtrlState :=
  { is_connected := true
    port_open := true
    discovered := [1]
    patterns := [(1, pStart)]
    threads := [1]
    speed_writer := true
    position_writer := true }

section FlagPreservation

variable (p : Pattern)

theorem calcSweep_run (c : Int) : (calcSweep p c).1.running = p.running := by
  simp only [calcSweep]
  repeat' split
  all_goals rfl

theorem calcSweep_pause (c : Int) : (calcSweep p c).1.paused = p.paused := by
  simp only [calcSweep]
  repeat' split
  all_goals rfl

theorem calcSweep_imm (c : Int) :
    (calcSweep p c).1.immediate_stop = p.immediate_stop := by
  simp only [calcSweep]
  repeat' split
  all_goals rfl

theorem calcSweep_em (c : Int) :
    (calcSweep p c).1.emergency_stop = p.emergency_stop := by
  simp only [calcSweep]
  repeat' split
  all_goals rfl

theorem calcNext_run (o : Int) : (calcNext p o).1.running = p.running := by
  simp only [calcNext]; split <;> simp [calcSweep_run]

theorem calcNext_pause (o : Int) : (calcNext p o).1.paused = p.paused := by
  simp only [calcNext]; split <;> simp [calcSweep_pause]

theorem calcNext_imm (o : Int) :
    (calcNext p o).1.immediate_stop = p.immediate_stop := by
  simp only [calcNext]; split <;> simp [calcSweep_imm]

theorem calcNext_em (o : Int) :
    (calcNext p o).1.emergency_stop = p.emergency_stop := by
  simp only [calcNext]; split <;> simp [calcSweep_em]

theorem angleClamp_run (v : Int) : (angleClamp p v).1.running = p.running := by
  simp only [angleClamp]
  repeat' split
  all_goals rfl

theorem angleClamp_pause (v : Int) : (angleClamp p v).1.paused = p.paused := by
  simp only [angleClamp]
  repeat' split
  all_goals rfl

theorem angleClamp_imm (v : Int) :
    (angleClamp p v).1.immediate_stop = p.immediate_stop := by
  simp only [angleClamp]
  repeat' split
  all_goals rfl

theorem angleClamp_em (v : Int) :
    (angleClamp p v).1.emergency_stop = p.emergency_stop := by
  simp only [angleClamp]
  repeat' split
  all_goals rfl

theorem runRecovery_run (l : List (Option Int)) :
    (runRecovery p l).1.running = p.running := by
  induction l with
  | nil => rfl
  | cons h t ih => cases h <;> simp [runRecovery, ih]

theorem runRecovery_pause (l : List (Option Int)) :
    (runRecovery p l).1.paused = p.paused := by
  induction l with
  | nil => rfl
  | cons h t ih => cases h <;> simp [runRecovery, ih]

theorem runRecovery_imm (l : List (Option Int)) :
    (runRecovery p l).1.immediate_stop = p.immediate_stop := by
  induction l with
  | nil => rfl
  | cons h t ih => cases h <;> simp [runRecovery, ih]

theorem runRecovery_em (l : List (Option Int)) :
    (runRecovery p l).1.emergency_stop = p.emergency_stop := by
  induction l with
  | nil => rfl
  | cons h t ih => cases h <;> simp [runRecovery, ih]

theorem healthCheck_run (r : Option Int) (l : List (Option Int)) :
    (healthCheck p r l).1.running = p.running := by
  cases r <;> simp [healthCheck, runRecovery_run]

theorem healthCheck_pause (r : Option Int) (l : List (Option Int)) :
    (healthCheck p r l).1.paused = p.paused := by
  cases r <;> simp [healthCheck, runRecovery_pause]

theorem healthCheck_imm (r : Option Int) (l : List (Option Int)) :
    (healthCheck p r l).1.immediate_stop = p.immediate_stop := by
  cases r <;> simp [healthCheck, runRecovery_imm]

theorem healthCheck_em (r : Option Int) (l : List (Option Int)) :
    (healthCheck p r l).1.emergency_stop = p.emergency_stop := by
  cases r <;> simp [healthCheck, runRecovery_em]

end FlagPreservation

theorem successState_run (s : WState) (env : StepEnv) (p2 : Pattern) (n : Int) :
    (successState s env p2 n).pattern.running = p2.running := by
  simp only [successState]
  split_ifs <;> simp [healthCheck_run]

theorem successState_pause (s : WState) (env : StepEnv) (p2 : Pattern) (n : Int) :
    (successState s env p2 n).pattern.paused = p2.paused := by
  simp only [successState]
  split_ifs <;> simp [healthCheck_pause]

theorem successState_imm (s : WState) (env : StepEnv) (p2 : Pattern) (n : Int) :
    (successState s env p2 n).pattern.immediate_stop = p2.immediate_stop := by
  simp only [successState]
  split_ifs <;> simp [healthCheck_imm]

theorem successState_em (s : WState) (env : StepEnv) (p2 : Pattern) (n : Int) :
    (successState s env p2 n).pattern.emergency_stop = p2.emergency_stop := by
  simp only [successState]
  split_ifs <;> simp [healthCheck_em]

theorem failState_run (s : WState) (env : StepEnv) (p2 : Pattern) :
    (failState s env p2).pattern.running = p2.running := by
  simp only [failState]
  split_ifs <;> simp [healthCheck_run, runRecovery_run]

theorem failState_pause (s : WState) (env : StepEnv) (p2 : Pattern) :
    (failState s env p2).pattern.paused = p2.paused := by
  simp only [failState]
  split_ifs <;> simp [healthCheck_pause, runRecovery_pause]

theorem failState_imm (s : WState) (env : StepEnv) (p2 : Pattern) :
    (failState s env p2).pattern.immediate_stop = p2.immediate_stop := by
  simp only [failState]
  split_ifs <;> simp [healthCheck_imm, runRecovery_imm]

theorem failState_em (s : WState) (env : StepEnv) (p2 : Pattern) :
    (failState s env p2).pattern.emergency_stop = p2.emergency_stop := by
  simp only [failState]
  split_ifs <;> simp [healthCheck_em, runRecovery_em]

set_option maxHeartbeats 1000000 in
theorem workerStep_run (id : Int) (s : WState) (env : StepEnv) :
    (workerStep id s env).st.pattern.running = s.pattern.running := by
  simp only [workerStep]
  split_ifs <;>
    simp [calcNext_run, angleClamp_run, successState_run, failState_run]

set_option maxHeartbeats 1000000 in
theorem workerStep_pause (id : Int) (s : WState) (env : StepEnv) :
    (workerStep id s env).st.pattern.paused = s.pattern.paused := by
  simp only [workerStep]
  split_ifs <;>
    simp [calcNext_pause, angleClamp_pause, successState_pause, failState_pause]

set_option maxHeartbeats 1000000 in
theorem workerStep_imm (id : Int) (s : WState) (env : StepEnv) :
    (workerStep id s env).st.pattern.immediate_stop = s.pattern.immediate_stop := by
  simp only [workerStep]
  split_ifs <;>
    simp [calcNext_imm, angleClamp_imm, successState_imm, failState_imm]

set_option maxHeartbeats 1000000 in
theorem workerStep_em (id : Int) (s : WState) (env : StepEnv) :
    (workerStep id s env).st.pattern.emergency_stop = s.pattern.emergency_stop := by
  simp only [workerStep]
  split_ifs <;>
    simp [calcNext_em, angleClamp_em, successState_em, failState_em]

theorem failState_fails (s : WState) (env : StepEnv) (p2 : Pattern) :
    (failState s env p2).fails = failCounter s.fails := rfl

theorem workerStep_emits (id : Int) (s : WState) (env : StepEnv)
    (hrun : s.pattern.running = true)
    (him : s.pattern.immediate_stop = false)
    (hem : s.pattern.emergency_stop = false)
    (hpa : s.pattern.paused = false)
    (hbr : env.bodyRaises = false)
    (hm : env.move1 = true) :
    (workerStep id s env).emitted ≠ [] := by
  simp [workerStep, hrun, him, hem, hpa, hbr, hm,
    calcNext_imm, calcNext_em, angleClamp_imm, angleClamp_em]

theorem workerStep_failure_shape (id : Int) (s : WState) (env : StepEnv)
    (hrun : s.pattern.running = true)
    (him : s.pattern.immediate_stop = false)
    (hem : s.pattern.emergency_stop = false)
    (hpa : s.pattern.paused = false)
    (hm1 : env.move1 = false) (hm2 : env.move2 = false) (hm3 : env.move3 = false) :
    (workerStep id s env).out = StepOut.continued ∧
    (workerStep id s env).emitted = [] ∧
    (workerStep id s env).st.fails = failCounter s.fails := by
  by_cases hbr : env.bodyRaises = true
  · simp [workerStep, hrun, him, hem, hpa, hbr]
  · simp only [Bool.not_eq_true] at hbr
    simp [workerStep, hrun, him, hem, hpa, hbr, hm1, hm2, hm3,
      calcNext_imm, calcNext_em, angleClamp_imm, angleClamp_em, failState_fails]

/-- C1: the claim says the per-servo worker terminates (clears
`running`, stops emitting) once a finite pattern's `cycle_count`
reaches `cycles_target`.  The code does not: at a state with the stored
target reached (`cycle_count = cycles = 2`) the per-servo worker keeps
`running` true, emits a further setpoint and continues the loop — the
only cycle-termination check in the source is the one of the never
spawned group worker, which would indeed clear `running` here. -/
theorem sweep_worker_ignores_cycles_target :
    sC1.pattern.cycles = some 2 ∧
    sC1.pattern.cycle_count = some 2 ∧
    sC1.pattern.running = true ∧
    (workerStep 1 sC1 probeEnv).st.pattern.running = true ∧
    (workerStep 1 sC1 probeEnv).emitted = [Cmd.writePosEx 1 2800 200 50] ∧
    (workerStep 1 sC1 probeEnv).out = StepOut.continued ∧
    (groupCycleCheck sC1.pattern).running = false := by
  refine ⟨rfl, rfl, rfl, rfl, rfl, rfl, rfl⟩

/-- C3: the claim says every setpoint of a sweep started with request
bounds stays inside those bounds.  The code stores the request bounds
under `min_position` / `max_position` while the sweep calculation reads
`start_position` / `end_position`, which default to 0 / 4095, so with
requested bounds 1000-3000 the worker emits setpoint 3200 (and keeps
climbing towards 4095). -/
theorem sweep_setpoints_escape_requested_bounds :
    (startPattern cfgS).min_position = some 1000 ∧
    (startPattern cfgS).max_position = some 3000 ∧
    pStart.start_position = some 0 ∧
    pStart.end_position = some 4095 ∧
    (workerStep 1 sC3 probeEnv).emitted = [Cmd.writePosEx 1 3200 200 50] ∧
    (workerStep 1 sC3 probeEnv).st.pattern.current_position = some 3200 ∧
    ((3200 : Int) ≤ 3000) = False := by
  refine ⟨rfl, rfl, rfl, rfl, rfl, rfl, by decide⟩

/-- C4: the claim says a boundary touch increments `cycle_count`
exactly once, with no second increment on any other path.  The code
increments twice per touch: the worker's post-success check (app.py
1799-1803) adds one when the emitted setpoint reaches the boundary, and
`_calculate_sweep_position` adds another on the next iteration when it
snaps to the same boundary and flips the direction — two increments,
both steps emitting the same boundary setpoint 4095. -/
theorem sweep_boundary_double_increment :
    pC4.cycle_count = some 0 ∧
    pC4.direction = some 1 ∧
    rC4a.emitted = [Cmd.writePosEx 1 4095 200 50] ∧
    rC4a.st.pattern.cycle_count = some 1 ∧
    rC4a.st.pattern.direction = some 1 ∧
    rC4b.emitted = [Cmd.writePosEx 1 4095 200 50] ∧
    rC4b.st.pattern.cycle_count = some 2 ∧
    rC4b.st.pattern.direction = some (-1) ∧
    rC4b.st.pattern.current_position = some 4095 := by
  refine ⟨rfl, rfl, rfl, rfl, rfl, rfl, rfl, rfl, rfl⟩

/-- C6: the claim says `current_position` is always seeded from a live
read (2048 on read failure) before the first setpoint.  The worker's
seed block only runs when the `current_position` key is absent, and
`start_continuous_movement` presets it to 0, so with the servo's live
position 3000 the seed is skipped and the first setpoint (200) derives
from 0.  The last two conjuncts show the seed block itself would use
the live read / the 2048 fallback if the key were absent. -/
theorem worker_seed_defeated_by_preset_position :
    (startPattern cfgS).current_position = some 0 ∧
    (workerInit (startPattern cfgS) (some 3000)).current_position = some 0 ∧
    (workerStep 1 ⟨workerInit (startPattern cfgS) (some 3000), 0, 0, none⟩
        probeEnv).emitted = [Cmd.writePosEx 1 200 200 50] ∧
    (workerInit { startPattern cfgS with current_position := none }
        (some 3000)).current_position = some 3000 ∧
    (workerInit { startPattern cfgS with current_position := none }
        none).current_position = some 2048 := by
  refine ⟨rfl, rfl, rfl, rfl, rfl⟩

/-- C9 (counterexample): the claim says `disconnect()` stops all
movement workers, as the stop path does, before releasing the port.  On
a controller with a running sweep worker on servo 1, `disconnect`
releases the port but leaves the pattern record present with
`running = true` and the thread handle in place, whereas the stop path
would have removed both. -/
theorem disconnect_does_not_stop_workers :
    sDis.patterns = [(1, pStart)] ∧
    pStart.running = true ∧
    (disconnect sDis).1.port_open = false ∧
    (disconnect sDis).1.is_connected = false ∧
    (disconnect sDis).1.patterns = [(1, pStart)] ∧
    (disconnect sDis).1.threads = [1] ∧
    (stopServoRecord sDis 1).patterns = [] ∧
    (stopServoRecord sDis 1).threads = [] := by
  refine ⟨rfl, rfl, rfl, rfl, rfl, rfl, by decide, by decide⟩

/-- C9 (amended): `disconnect()` closes the port, clears the discovery
map and the group-sync writers and reports success; it does not touch
the movement records or worker threads, and it is idempotent — a second
call on an already-disconnected controller succeeds and changes
nothing. -/
theorem disconnect_releases_port_only (s : CtrlState) :
    (disconnect s).2 = true ∧
    (disconnect s).1.is_connected = false ∧
    (disconnect s).1.port_open = false ∧
    (disconnect s).1.discovered = [] ∧
    (disconnect s).1.speed_writer = false ∧
    (disconnect s).1.position_writer = false ∧
    (disconnect s).1.patterns = s.patterns ∧
    (disconnect s).1.threads = s.threads ∧
    disconnect (disconnect s).1 = disconnect s := by
  refine ⟨rfl, rfl, rfl, rfl, rfl, rfl, rfl, rfl, rfl⟩

/-- C2: communication failure alone never terminates the worker loop.
On an iteration whose movement attempts all fail (or whose body raises),
the iteration continues rather than breaking, the pause/stop flags and
`running` are untouched, the consecutive-failure counter follows
`failCounter` — in particular it is reset to zero whenever the recovery
ladder ran, whatever `env.recovery` (so whether or not recovery
succeeded) — and the next benign iteration again emits a motion
command. -/
theorem worker_comm_failure_never_stops (id : Int) (s : WState) (env : StepEnv)
    (hrun : s.pattern.running = true)
    (him : s.pattern.immediate_stop = false)
    (hem : s.pattern.emergency_stop = false)
    (hpa : s.pattern.paused = false)
    (hm1 : env.move1 = false) (hm2 : env.move2 = false) (hm3 : env.move3 = false) :
    (workerStep id s env).out = StepOut.continued ∧
    (workerStep id s env).emitted = [] ∧
    (workerStep id s env).st.pattern.running = true ∧
    (workerStep id s env).st.pattern.paused = false ∧
    (workerStep id s env).st.pattern.immediate_stop = false ∧
    (workerStep id s env).st.pattern.emergency_stop = false ∧
    (workerStep id s env).st.fails = failCounter s.fails ∧
    (5 ≤ s.fails + 1 → (workerStep id s env).st.fails = 0) ∧
    (workerStep id (workerStep id s env).st probeEnv).emitted ≠ [] := by
  obtain ⟨ho, hemit, hf⟩ := workerStep_failure_shape id s env hrun him hem hpa hm1 hm2 hm3
  have hr := (workerStep_run id s env).trans hrun
  have hp := (workerStep_pause id s env).trans hpa
  have hi := (workerStep_imm id s env).trans him
  have he := (workerStep_em id s env).trans hem
  refine ⟨ho, hemit, hr, hp, hi, he, hf, ?_, ?_⟩
  · intro h5
    rw [hf]
    simp [failCounter, h5]
  · exact workerStep_emits id (workerStep id s env).st probeEnv hr hi he hp rfl rfl

/-- Witness for C2: a concrete running sweep record with four prior
consecutive failures, one more all-attempts-failed iteration (all
recovery attempts failing too): the loop continues, `running` stays
true, the counter resets to zero, and the following iteration emits. -/
theorem worker_comm_failure_never_stops_witness :
    pStart.running = true ∧ pStart.immediate_stop = false ∧
    pStart.emergency_stop = false ∧ pStart.paused = false ∧
    envFail.move1 = false ∧ envFail.move2 = false ∧ envFail.move3 = false ∧
    ((workerStep 1 ⟨pStart, 4, 0, none⟩ envFail).out = StepOut.continued ∧
     (workerStep 1 ⟨pStart, 4, 0, none⟩ envFail).emitted = [] ∧
     (workerStep 1 ⟨pStart, 4, 0, none⟩ envFail).st.pattern.running = true ∧
     (workerStep 1 ⟨pStart, 4, 0, none⟩ envFail).st.pattern.paused = false ∧
     (workerStep 1 ⟨pStart, 4, 0, none⟩ envFail).st.pattern.immediate_stop = false ∧
     (workerStep 1 ⟨pStart, 4, 0, none⟩ envFail).st.pattern.emergency_stop = false ∧
     (workerStep 1 ⟨pStart, 4, 0, none⟩ envFail).st.fails = failCounter 4 ∧
     (5 ≤ 4 + 1 → (workerStep 1 ⟨pStart, 4, 0, none⟩ envFail).st.fails = 0) ∧
     (workerStep 1 (workerStep 1 ⟨pStart, 4, 0, none⟩ envFail).st probeEnv).emitted ≠ []) :=
  ⟨rfl, rfl, rfl, rfl, rfl, rfl, rfl,
    worker_comm_failure_never_stops 1 ⟨pStart, 4, 0, none⟩ envFail
      rfl rfl rfl rfl rfl rfl rfl⟩

/-- C5: a successful pause of a running pattern performs exactly this
sequence: under the pause lock set `immediate_stop`, `emergency_stop`
and `paused` to true; sleep 100 ms; send the hold command
(`WriteSpec(id, 0, 50)` for rotation, otherwise a position read
followed by `WritePosEx(pos, 0, 0)`); re-assert torque-enable; and
finally clear only `emergency_stop`, leaving `immediate_stop` and
`paused` true on return. -/
theorem pause_success_sequence (id : Int) (p : Pattern) (env : PauseEnv)
    (hrun : p.running = true)
    (hs : (pauseServo id p env).success = true) :
    (pauseServo id p env).pattern.running = true ∧
    (pauseServo id p env).pattern.immediate_stop = true ∧
    (pauseServo id p env).pattern.paused = true ∧
    (pauseServo id p env).pattern.emergency_stop = false ∧
    (pauseServo id p env).events =
      pauseFlagAsserts ++
        (if p.kind = PKind.rotation then
          [PEvent.busCmd (Cmd.writeSpec id 0 50)]
         else
          [PEvent.busCmd (Cmd.readPos id),
           PEvent.busCmd (Cmd.writePosEx id (env.readPos.getD 2048) 0 0)]) ++
        [PEvent.busCmd (Cmd.writeTorque id 1), PEvent.sleepEv 50,
         PEvent.setEmergency false] := by
  cases hk : p.kind with
  | rotation =>
      by_cases hw : env.writeSpecOk = true
      · simp [pauseServo, hrun, hk, hw] at hs ⊢
      · simp only [Bool.not_eq_true] at hw
        simp [pauseServo, hrun, hk, hw] at hs
  | sweep =>
      by_cases ht : env.torqueOk = true
      · simp [pauseServo, hrun, hk, ht] at hs ⊢
      · simp only [Bool.not_eq_true] at ht
        simp [pauseServo, hrun, hk, ht] at hs
  | wave =>
      by_cases ht : env.torqueOk = true
      · simp [pauseServo, hrun, hk, ht] at hs ⊢
      · simp only [Bool.not_eq_true] at ht
        simp [pauseServo, hrun, hk, ht] at hs

/-- Witness for C5: pausing a running rotation record with all pause
transports succeeding. -/
theorem pause_success_sequence_witness :
    pRot.running = true ∧
    (pauseServo 1 pRot envPauseOk).success = true ∧
    ((pauseServo 1 pRot envPauseOk).pattern.running = true ∧
     (pauseServo 1 pRot envPauseOk).pattern.immediate_stop = true ∧
     (pauseServo 1 pRot envPauseOk).pattern.paused = true ∧
     (pauseServo 1 pRot envPauseOk).pattern.emergency_stop = false ∧
     (pauseServo 1 pRot envPauseOk).events =
       pauseFlagAsserts ++
         (if pRot.kind = PKind.rotation then
           [PEvent.busCmd (Cmd.writeSpec 1 0 50)]
          else
           [PEvent.busCmd (Cmd.readPos 1),
            PEvent.busCmd (Cmd.writePosEx 1 (envPauseOk.readPos.getD 2048) 0 0)]) ++
         [PEvent.busCmd (Cmd.writeTorque 1 1), PEvent.sleepEv 50,
          PEvent.setEmergency false]) :=
  ⟨rfl, rfl, pause_success_sequence 1 pRot envPauseOk rfl rfl⟩

/-- C10: if the hold command of the pause path fails — the rotation
zero-speed write, or for positional patterns the torque re-assert —
pause rolls the flag state back: `paused`, `immediate_stop` and
`emergency_stop` are all cleared (with `running` still true, so the
worker resumes emitting setpoints) and the per-id result reports
failure. -/
theorem pause_hold_failure_rolls_back (id : Int) (p : Pattern) (env : PauseEnv)
    (hrun : p.running = true)
    (hfail : (p.kind = PKind.rotation ∧ env.writeSpecOk = false) ∨
             (p.kind ≠ PKind.rotation ∧ env.torqueOk = false)) :
    (pauseServo id p env).success = false ∧
    (pauseServo id p env).pattern.paused = false ∧
    (pauseServo id p env).pattern.immediate_stop = false ∧
    (pauseServo id p env).pattern.emergency_stop = false ∧
    (pauseServo id p env).pattern.running = true ∧
    (workerStep id ⟨(pauseServo id p env).pattern, 0, 0, none⟩ probeEnv).emitted ≠ [] := by
  have hshape :
      (pauseServo id p env).success = false ∧
      (pauseServo id p env).pattern.paused = false ∧
      (pauseServo id p env).pattern.immediate_stop = false ∧
      (pauseServo id p env).pattern.emergency_stop = false ∧
      (pauseServo id p env).pattern.running = true := by
    rcases hfail with ⟨hk, hw⟩ | ⟨hk, ht⟩
    · simp [pauseServo, hrun, hk, hw]
    · cases hkind : p.kind with
      | rotation => exact absurd hkind hk
      | sweep => simp [pauseServo, hrun, hkind, ht]
      | wave => simp [pauseServo, hrun, hkind, ht]
  obtain ⟨h1, h2, h3, h4, h5⟩ := hshape
  exact ⟨h1, h2, h3, h4, h5,
    workerStep_emits id ⟨(pauseServo id p env).pattern, 0, 0, none⟩ probeEnv
      h5 h3 h4 h2 rfl rfl⟩

/-- Witness for C10: a running rotation record whose zero-speed hold
write fails — pause reports failure, rolls all three flags back, and a
following worker iteration emits again. -/
theorem pause_hold_failure_rolls_back_witness :
    pRot.running = true ∧
    (pRot.kind = PKind.rotation ∧ envPauseFail.writeSpecOk = false) ∧
    ((pauseServo 1 pRot envPauseFail).success = false ∧
     (pauseServo 1 pRot envPauseFail).pattern.paused = false ∧
     (pauseServo 1 pRot envPauseFail).pattern.immediate_stop = false ∧
     (pauseServo 1 pRot envPauseFail).pattern.emergency_stop = false ∧
     (pauseServo 1 pRot envPauseFail).pattern.running = true ∧
     (workerStep 1 ⟨(pauseServo 1 pRot envPauseFail).pattern, 0, 0, none⟩
        probeEnv).emitted ≠ []) :=
  ⟨rfl, ⟨rfl, rfl⟩,
    pause_hold_failure_rolls_back 1 pRot envPauseFail rfl (Or.inl ⟨rfl, rfl⟩)⟩

/-- C7: the group sync position writer still transmits one frame for
the servos that were added when some adds fail locally, and reports the
included ids; the transaction result is `COMM_SUCCESS` iff at least one
id was added and one of the two transmission attempts (with 50 ms
backoff between them) succeeded; with zero ids added it is
`COMM_TX_ERROR` and nothing is transmitted. -/
theorem groupSyncWrite_partial_membership (entries : List SyncEntry) (tx1 tx2 : Bool) :
    (syncWrite entries tx1 tx2).added =
      (entries.filter (fun e => e.addOk)).map (fun e => e.id) ∧
    ((syncWrite entries tx1 tx2).result = COMM_SUCCESS ↔
      (syncWrite entries tx1 tx2).added ≠ [] ∧ (tx1 = true ∨ tx2 = true)) ∧
    ((syncWrite entries tx1 tx2).added = [] →
      (syncWrite entries tx1 tx2).result = COMM_TX_ERROR ∧
      (syncWrite entries tx1 tx2).trace = []) ∧
    ((syncWrite entries tx1 tx2).added ≠ [] →
      (syncWrite entries tx1 tx2).trace =
        if tx1 then [Cmd.txSyncFrame (syncWrite entries tx1 tx2).added]
        else
          [Cmd.txSyncFrame (syncWrite entries tx1 tx2).added, Cmd.sleepMs 50,
           Cmd.txSyncFrame (syncWrite entries tx1 tx2).added]) := by
  by_cases hadd : (entries.filter (fun e => e.addOk)).map (fun e => e.id) = []
  · simp [syncWrite, hadd, COMM_SUCCESS, COMM_TX_ERROR]
  · cases tx1 <;> cases tx2 <;>
      simp [syncWrite, hadd, COMM_SUCCESS, COMM_TX_FAIL]

/-- Witness for C7: a batch of servos 1, 7 and a rejected 99; the first
transmission attempt fails and the retry succeeds: the frame carries
exactly ids 1 and 7 and the transaction succeeds; a batch whose only
entry is rejected errors out. -/
theorem groupSyncWrite_partial_membership_witness :
    (syncWrite entW false true).added = [1, 7] ∧
    (syncWrite entW false true).result = COMM_SUCCESS ∧
    (syncWrite entW false true).trace =
      [Cmd.txSyncFrame [1, 7], Cmd.sleepMs 50, Cmd.txSyncFrame [1, 7]] ∧
    (syncWrite [⟨99, 1700, 100, 50, false⟩] true true).result = COMM_TX_ERROR := by
  refine ⟨rfl, ?_, rfl, rfl⟩
  exact ((groupSyncWrite_partial_membership entW false true).2.1).mpr
    ⟨by decide, Or.inr rfl⟩

/-- C8: `change_servo_id(old, new)` errors without touching EEPROM when
an id is outside [0, 253], when the ids coincide, when `ping(old)`
fails, or when `ping(new)` answers (id in use); when it proceeds with
all transports succeeding it unlocks EEPROM on `old`, writes the new id
to the ID register on `old`, locks EEPROM addressed to `new`, waits
200 ms and pings `new`, and it reports success exactly when that
verification ping succeeds — and success always implies the
verification ping succeeded. -/
theorem changeId_contract (oldId newId : Int) (env : IdEnv) :
    ((oldId < 0 ∨ oldId > 253 ∨ newId < 0 ∨ newId > 253 ∨ oldId = newId) →
      (changeServoId oldId newId env).1 = false ∧
      eepromOps (changeServoId oldId newId env).2 = []) ∧
    (env.pingOldOk = false →
      (changeServoId oldId newId env).1 = false ∧
      eepromOps (changeServoId oldId newId env).2 = []) ∧
    ((env.pingNewRaises = false ∧ env.pingNewResponds = true) →
      (changeServoId oldId newId env).1 = false ∧
      eepromOps (changeServoId oldId newId env).2 = []) ∧
    ((0 ≤ oldId ∧ oldId ≤ 253 ∧ 0 ≤ newId ∧ newId ≤ 253 ∧ oldId ≠ newId ∧
      env.pingOldOk = true ∧
      ¬(env.pingNewRaises = false ∧ env.pingNewResponds = true) ∧
      env.unlockOk = true ∧ env.writeIdOk = true ∧ env.lockNewOk = true) →
      (changeServoId oldId newId env).2 =
        [Cmd.pingCmd oldId, Cmd.pingCmd newId, Cmd.unlockEprom oldId,
         Cmd.sleepMs 100, Cmd.writeIdReg oldId newId, Cmd.sleepMs 150,
         Cmd.lockEprom newId, Cmd.sleepMs 200, Cmd.pingCmd newId] ∧
      ((changeServoId oldId newId env).1 = true ↔ env.verifyPingOk = true)) ∧
    ((changeServoId oldId newId env).1 = true → env.verifyPingOk = true) := by
  refine ⟨?_, ?_, ?_, ?_, ?_⟩
  · intro h
    by_cases hr : oldId < 0 ∨ oldId > 253 ∨ newId < 0 ∨ newId > 253
    · simp [changeServoId, hr, eepromOps]
    · have heq : oldId = newId := by tauto
      simp [changeServoId, hr, heq, eepromOps]
  · intro hping
    simp only [changeServoId]
    split_ifs <;> simp_all [eepromOps, touchesEeprom]
  · intro hbusy
    simp only [changeServoId]
    split_ifs <;> simp_all [eepromOps, touchesEeprom]
  · rintro ⟨h1, h2, h3, h4, h5, h6, h7, h8, h9, h10⟩
    have hr : ¬(oldId < 0 ∨ oldId > 253 ∨ newId < 0 ∨ newId > 253) := by omega
    simp [changeServoId, hr, h5, h6, h7, h8, h9, h10]
  · intro hsucc
    revert hsucc
    simp only [changeServoId]
    split_ifs <;> simp

/-- Witness for C8: changing id 1 to the free id 5 with every transport
succeeding performs the full EEPROM sequence and succeeds; changing an
id to itself touches nothing. -/
theorem changeId_contract_witness :
    (changeServoId 1 5 idEnvGood).2 =
      [Cmd.pingCmd 1, Cmd.pingCmd 5, Cmd.unlockEprom 1, Cmd.sleepMs 100,
       Cmd.writeIdReg 1 5, Cmd.sleepMs 150, Cmd.lockEprom 5, Cmd.sleepMs 200,
       Cmd.pingCmd 5] ∧
    (changeServoId 1 5 idEnvGood).1 = true ∧
    (changeServoId 2 2 idEnvGood).1 = false ∧
    eepromOps (changeServoId 2 2 idEnvGood).2 = [] := by
  have h4 := (changeId_contract 1 5 idEnvGood).2.2.2.1
    (by refine ⟨by decide, by decide, by decide, by decide, by decide, rfl, ?_, rfl, rfl, rfl⟩
        decide)
  have h1 := (changeId_contract 2 2 idEnvGood).1 (by tauto)
  exact ⟨h4.1, h4.2.mpr rfl, h1.1, h1.2⟩

end STServo
